import Mathlib

/-!
Shallow embedding of the tool-calling functions of the `aiassist` repository
(`src/aitools.py`, `src/toolsn8n.py`, `src/tools.py`).

Each Python tool function performs at most one outbound HTTP (or SMTP)
interaction.  We embed a function as a pure Lean function taking

  * its Python arguments,
  * the relevant environment variables (an `Env` record of `Option String`,
    mirroring `os.getenv`),
  * an *outcome* value describing what the single external interaction did
    (the HTTP status and parsed body, or which exception it raised),

and returning the string result together with the trace of external
requests/events it issued.  The result type is `Except String String`:
`Except.ok s` is the Python `return s`, while `Except.error e` marks an
exception propagating out of the function (Python `raise`).
-/

deriving instance DecidableEq for Except

/-- Python `str.lower()` (ASCII case folding suffices for the values used). -/
def strLower (s : String) : String := ⟨s.data.map Char.toLower⟩

/-- Python `str.capitalize()`: first character upper-cased, rest lower-cased. -/
def pyCapitalize (s : String) : String :=
  match s.data with
  | [] => ""
  | c :: cs => ⟨Char.toUpper c :: cs.map Char.toLower⟩

/-- Python `"@" in s`: the one-character substring test. -/
def containsAtSign (s : String) : Bool := s.data.contains '@'

/-- JSON values appearing in the request payloads of this repository. -/
inductive JVal where
  | s (v : String)
  | n (v : Int)
  | b (v : Bool)
  | emptyArr
deriving DecidableEq, Repr

inductive HttpMethod where
  | get
  | post
deriving DecidableEq, Repr

/-- One outbound HTTP request: method, URL, query parameters, JSON body,
and the explicit per-request timeout in seconds (`none` when the code
passes no timeout and relies on the library default). -/
structure HttpRequest where
  method : HttpMethod
  url : String
  params : List (String × JVal) := []
  jsonBody : Option (List (String × JVal)) := none
  timeout : Option Nat := none
deriving DecidableEq, Repr

/-- The environment-variable bag read by the tool functions (`os.getenv`). -/
structure Env where
  WEATHER_API_KEY : Option String := none
  TAVILY_API_KEY : Option String := none
  EMAIL_DEMO_MODE : Option String := none
  EMAIL_PROVIDER : Option String := none
  OUTLOOK_USER : Option String := none
  OUTLOOK_PASSWORD : Option String := none
  YANDEX_USER : Option String := none
  YANDEX_PASSWORD : Option String := none
  MAIL_USER : Option String := none
  MAIL_PASSWORD : Option String := none
  GMAIL_USER : Option String := none
  GMAIL_APP_PASSWORD : Option String := none
deriving Repr

namespace Aitools

/-! ### `src/aitools.py`: `get_weather` -/

/-- One day of `forecast.forecastday[i]` as the code reads it:
`date`, `day.maxtemp_c`/`day.mintemp_c` (already truncated by `int(...)`),
`day.condition.text`, `day.daily_chance_of_rain`, `day.daily_chance_of_snow`. -/
structure ForecastDay where
  date : String
  maxtemp : Int
  mintemp : Int
  condition : String
  rainChance : Int
  snowChance : Int
deriving DecidableEq, Repr

/-- The fields of a WeatherAPI 200-response body that `get_weather` reads. -/
structure WeatherData where
  locName : String
  locCountry : String
  tempC : Int
  condText : String
  forecastDays : List ForecastDay
deriving DecidableEq, Repr

/-- Outcome of the single `session.get` in `get_weather`: a response with a
status code and (for 200) a body that either has all the fields the code
reads (`some`) or raises a `KeyError`/JSON error while being read (`none`);
or any exception raised by the request itself. -/
inductive WeatherOutcome where
  | response (status : Nat) (body : Option WeatherData)
  | exception
deriving DecidableEq, Repr

/-- The per-day forecast sentence the loop body appends for day `i ≥ 1`. -/
def forecastDaySentence (i : Nat) (d : ForecastDay) : String :=
  let dayName := if i = 1 then "tomorrow" else "day " ++ toString (i + 1)
  let base := " " ++ pyCapitalize dayName ++ ": " ++ toString d.mintemp ++ " to "
      ++ toString d.maxtemp ++ " degrees, " ++ strLower d.condition
  let withPrecip :=
    if d.snowChance > 30 then
      base ++ " with " ++ toString d.snowChance ++ "% chance of snow"
    else if d.rainChance > 30 then
      base ++ " with " ++ toString d.rainChance ++ "% chance of rain"
    else base
  withPrecip ++ "."

/-- The `for i, day_data in enumerate(forecast_days)` loop, which skips `i = 0`. -/
def forecastText (days : List ForecastDay) : String :=
  String.join ((days.enum.filter (fun p => p.1 ≠ 0)).map
    (fun p => forecastDaySentence p.1 p.2))

/-- The current-weather sentence built from `location` and `current`. -/
def weatherBase (w : WeatherData) : String :=
  "Weather in " ++ w.locName ++ ", " ++ w.locCountry ++ ": Currently "
    ++ toString w.tempC ++ " degrees Celsius, " ++ strLower w.condText ++ "."

/-- The weather summary built from the 200-response fields
(`location`, `current`, `forecast.forecastday`). -/
def buildWeather (w : WeatherData) (days : Int) : String :=
  if days > 1 then weatherBase w ++ " Forecast: " ++ forecastText w.forecastDays
  else weatherBase w

def weatherNoKeyMsg : String :=
  "I'm afraid I cannot get weather information - the weather service is not configured properly, sir."

def weatherNotFoundMsg (city : String) : String :=
  "I couldn't find weather information for '" ++ city ++ "', sir. Please check the city name."

def weatherTroubleMsg : String :=
  "I'm having trouble accessing the weather service right now, sir."

def weatherExnMsg (city : String) : String :=
  "I encountered an issue while getting weather for " ++ city ++ ", sir. Please try again."

/-- The single GET request `get_weather` issues (no explicit timeout). -/
def weatherRequest (key city : String) (days : Int) : HttpRequest :=
  { method := .get
    url := "http://api.weatherapi.com/v1/forecast.json"
    params := [("key", .s key), ("q", .s city), ("days", .n days),
               ("aqi", .s "no"), ("alerts", .s "no")]
    jsonBody := none
    timeout := none }

/-- `aitools.get_weather(context, city, days=1)`. -/
def get_weather (env : Env) (city : String) (days : Int)
    (o : WeatherOutcome) : Except String String × List HttpRequest :=
  match env.WEATHER_API_KEY with
  | none => (.ok weatherNoKeyMsg, [])
  | some key =>
    if key = "" then (.ok weatherNoKeyMsg, []) else
    let d := min (max days 1) 3
    let req := weatherRequest key city d
    match o with
    | .exception => (.ok (weatherExnMsg city), [req])
    | .response status body =>
      if status = 200 then
        match body with
        | some w => (.ok (buildWeather w d), [req])
        | none => (.ok (weatherExnMsg city), [req])
      else if status = 400 then
        (.ok (weatherNotFoundMsg city), [req])
      else
        (.ok weatherTroubleMsg, [req])

/-! ### `src/aitools.py`: `search_web` -/

/-- One entry of the Tavily `results` array, as read by `search_web`
(`.get("title", "")`, `.get("url", "")`, `.get("content", "")`). -/
structure SearchItem where
  title : String
  sourceUrl : String
  content : String
deriving DecidableEq, Repr

/-- The fields of a Tavily 200-response body that `search_web` reads.
`answer` is `data.get("answer")` with `""` standing for an absent or
falsy value; `results` is `data.get("results")` with `[]` for absent. -/
structure SearchBody where
  answer : String
  results : List SearchItem
deriving DecidableEq, Repr

/-- Outcome of the single `session.post` in `search_web`. -/
inductive SearchOutcome where
  | response (status : Nat) (body : Option SearchBody)
  | exception
deriving DecidableEq, Repr

def searchNoKeyMsg : String :=
  "I'm sorry sir, I cannot search the web - the search service is not properly configured."

def searchAuthMsg : String :=
  "I'm having authentication issues with the search service, sir."

def searchRateMsg : String :=
  "I've reached the search limit for now, sir. Please try again later."

def searchTroubleMsg : String :=
  "I'm having trouble with the search service right now, sir."

def searchExnMsg (query : String) : String :=
  "I encountered an issue while searching for '" ++ query ++ "', sir. Please try again."

def searchNoResultsMsg (query : String) : String :=
  "I searched for '" ++ query ++ "' but found limited information, sir. Would you like me to try a more specific search?"

/-- The payload `search_web` posts to `https://api.tavily.com/search`. -/
def searchPayload (key query : String) : List (String × JVal) :=
  [("api_key", .s key), ("query", .s query), ("search_depth", .s "basic"),
   ("include_answer", .b true), ("include_images", .b false),
   ("include_raw_content", .b false), ("max_results", .n 3),
   ("include_domains", .emptyArr), ("exclude_domains", .emptyArr)]

/-- The single POST request `search_web` issues (no explicit timeout). -/
def searchRequest (key query : String) : HttpRequest :=
  { method := .post
    url := "https://api.tavily.com/search"
    params := []
    jsonBody := some (searchPayload key query)
    timeout := none }

/-- Source titles added after an AI answer: the first two results, keeping
titles that are non-empty and shorter than 100 characters. -/
def answerSources (rs : List SearchItem) : List String :=
  (rs.take 2).filterMap
    (fun r => if r.title ≠ "" ∧ r.title.length < 100 then some r.title else none)

/-- The result string when the 200 body has a non-empty `answer`. -/
def answerResult (query answer : String) (rs : List SearchItem) : String :=
  let base := "I found information about '" ++ query ++ "'. " ++ answer
  if rs ≠ [] then
    let sources := answerSources rs
    if sources ≠ [] then
      base ++ " This information comes from sources including: " ++
        String.intercalate ", " sources ++ "."
    else base
  else base

/-- Snippet truncation in the fallback branch:
`snippet[:200] + "..." if len(snippet) > 200 else snippet`. -/
def truncateSnippet (s : String) : String :=
  if s.length > 200 then s.take 200 ++ "..." else s

/-- The text the fallback loop appends for result `i` (skipped entirely
when the result's `content` is empty; a `" ... "` separator follows when
`i < 2`). -/
def fallbackPiece (i : Nat) (r : SearchItem) : String :=
  if r.content ≠ "" then
    " " ++ r.title ++ ": " ++ truncateSnippet r.content ++
      (if i < 2 then " ... " else "")
  else ""

/-- The fallback loop over `enumerate(data["results"][:3])`. -/
def fallbackText (rs : List SearchItem) : String :=
  String.join (((rs.take 3).enum).map (fun p => fallbackPiece p.1 p.2))

/-- `aitools.search_web(context, query)`. -/
def search_web (env : Env) (query : String)
    (o : SearchOutcome) : Except String String × List HttpRequest :=
  match env.TAVILY_API_KEY with
  | none => (.ok searchNoKeyMsg, [])
  | some key =>
    if key = "" then (.ok searchNoKeyMsg, []) else
    let req := searchRequest key query
    match o with
    | .exception => (.ok (searchExnMsg query), [req])
    | .response status body =>
      if status = 200 then
        match body with
        | none => (.ok (searchExnMsg query), [req])
        | some b =>
          if b.answer ≠ "" then
            (.ok (answerResult query b.answer b.results), [req])
          else if b.results ≠ [] then
            (.ok ("I found several results for '" ++ query ++ "': " ++
              fallbackText b.results), [req])
          else
            (.ok (searchNoResultsMsg query), [req])
      else if status = 401 then (.ok searchAuthMsg, [req])
      else if status = 429 then (.ok searchRateMsg, [req])
      else (.ok searchTroubleMsg, [req])

end Aitools

namespace Toolsn8n

/-! ### `src/toolsn8n.py`: `get_weather_n8n` -/

/-- The fields of an n8n 200-response body that `get_weather_n8n` reads:
`result.get('success', False)` (truthiness collapsed to `Bool`) and
`result.get('message', ...)` (`none` when the key is absent). -/
structure N8nBody where
  success : Bool
  message : Option String
deriving DecidableEq, Repr

/-- Outcome of the single `session.post` in `get_weather_n8n`: a response
(for 200, `none` as body means `await response.json()` raised a
`json.JSONDecodeError`), or one of the exception classes the function
catches. -/
inductive N8nOutcome where
  | response (status : Nat) (body : Option N8nBody)
  | timeoutExn
  | clientExn
  | otherExn
deriving DecidableEq, Repr

def N8N_WEATHER_URL : String :=
  "https://auto2025system.duckdns.org/webhook/smart-weather"

def n8nTimeoutMsg : String :=
  "Weather request timed out. The service might be busy, please try again."

def n8nClientErrMsg : String :=
  "Failed to connect to weather service. Please check your connection and try again."

def n8nJsonErrMsg : String :=
  "Weather service returned invalid data. Please try again."

def n8nExnMsg (city : String) : String :=
  "An unexpected error occurred while getting weather information for " ++ city ++ ". Please try again."

def n8nStatusErrMsg (status : Nat) : String :=
  "Weather service returned status " ++ toString status ++ ". Please try again."

/-- The JSON payload `get_weather_n8n` posts (`timestamp` is the event-loop
time, passed in here as a parameter). -/
def n8nPayload (city units : String) (tstamp : Int) : List (String × JVal) :=
  [("action", .s "weather"), ("city", .s city.trim),
   ("units", .s (strLower units)), ("date", .s "today"),
   ("user_id", .s "livekit_user"), ("timestamp", .n tstamp)]

/-- The single POST request `get_weather_n8n` issues, with its explicit
15-second `aiohttp.ClientTimeout`. -/
def n8nRequest (city units : String) (tstamp : Int) : HttpRequest :=
  { method := .post
    url := N8N_WEATHER_URL
    params := []
    jsonBody := some (n8nPayload city units tstamp)
    timeout := some 15 }

/-- `toolsn8n.get_weather_n8n(context, city, units="celsius")`. -/
def get_weather_n8n (city units : String) (tstamp : Int)
    (o : N8nOutcome) : Except String String × List HttpRequest :=
  let req := n8nRequest city units tstamp
  match o with
  | .response status body =>
    if status = 200 then
      match body with
      | none => (.ok n8nJsonErrMsg, [req])
      | some b =>
        if b.success then
          (.ok (b.message.getD "Weather information retrieved successfully."), [req])
        else
          (.ok ("Weather service error: " ++
            b.message.getD "Failed to get weather information."), [req])
    else (.ok (n8nStatusErrMsg status), [req])
  | .timeoutExn => (.ok n8nTimeoutMsg, [req])
  | .clientExn => (.ok n8nClientErrMsg, [req])
  | .otherExn => (.ok (n8nExnMsg city), [req])

end Toolsn8n

/-! ### Shared SMTP email machinery
(`send_email` appears in `aitools.py`, `toolsn8n.py` — identical bodies —
and, in a variant, in `tools.py`). -/

/-- The MIME message built by `send_email`: a `MIMEMultipart('alternative')`
with `From`/`To`/optional `Cc`/`Subject` headers and the attached parts
(MIME subtype, payload text). -/
structure MimeMessage where
  sender : String
  toAddr : String
  cc : Option String
  subject : String
  parts : List (String × String)
deriving DecidableEq, Repr

/-- Externally visible events of one `send_email` run. -/
inductive EmailEvent where
  | fileWrite (filename content : String)
  | smtpConnect (server : String) (port : Nat)
  | startTls
  | login (user : String)
  | sendmail (sender : String) (recipients : List String) (msg : MimeMessage)
  | quit
deriving DecidableEq, Repr

/-- Whether an event is part of an SMTP connection (anything but a local
file write). -/
def EmailEvent.isSmtp : EmailEvent → Bool
  | .fileWrite _ _ => false
  | _ => true

/-- Outcome of the SMTP interaction: which exception class (if any) the
`smtplib` calls raise, placed at the first call that can raise it
(`SMTPAuthenticationError` at `login`, `SMTPRecipientsRefused` at
`sendmail`, another `SMTPException` at `starttls`, any non-SMTP exception
at connection time). -/
inductive SmtpOutcome where
  | ok
  | authError
  | recipientsRefused
  | smtpOther
  | unexpected
deriving DecidableEq, Repr

/-- Python truthiness of an `os.getenv` result (`None` and `""` are falsy). -/
def truthyOpt : Option String → Bool
  | none => false
  | some s => !(s == "")

/-- `os.getenv("EMAIL_DEMO_MODE", "false").lower() == "true"`. -/
def demoModeOn (env : Env) : Bool :=
  strLower (env.EMAIL_DEMO_MODE.getD "false") == "true"

/-- The provider-dependent SMTP configuration selected by `send_email`. -/
structure SmtpConfig where
  provider : String
  server : String
  port : Nat
  user : Option String
  password : Option String
deriving DecidableEq, Repr

/-- Provider selection from `os.getenv("EMAIL_PROVIDER", "gmail").lower()`. -/
def emailConfig (env : Env) : SmtpConfig :=
  let p := strLower (env.EMAIL_PROVIDER.getD "gmail")
  if p = "outlook" then ⟨p, "smtp-mail.outlook.com", 587, env.OUTLOOK_USER, env.OUTLOOK_PASSWORD⟩
  else if p = "yandex" then ⟨p, "smtp.yandex.ru", 587, env.YANDEX_USER, env.YANDEX_PASSWORD⟩
  else if p = "mail" then ⟨p, "smtp.mail.ru", 587, env.MAIL_USER, env.MAIL_PASSWORD⟩
  else ⟨p, "smtp.gmail.com", 587, env.GMAIL_USER, env.GMAIL_APP_PASSWORD⟩

/-- The provider → SMTP-server mapping as the specification states it
(`outlook`, `yandex`, `mail`, anything else defaults to gmail); used to
compare `emailConfig` against the spec's words. -/
def specProviderServer (p : String) : String :=
  if p = "outlook" then "smtp-mail.outlook.com"
  else if p = "yandex" then "smtp.yandex.ru"
  else if p = "mail" then "smtp.mail.ru"
  else "smtp.gmail.com"

/-- `f"{message}\n\n---\nSent via AIAssist at {timestamp}"`. -/
def fullMessageText (message timestamp : String) : String :=
  message ++ "\n\n---\nSent via AIAssist at " ++ timestamp

/-- Python `full_message.replace(chr(10), '<br>')`. -/
def replaceNewlines (s : String) : String :=
  ⟨(s.data.map (fun c => if c = '\n' then "<br>".data else [c])).flatten⟩

/-- The payload of the HTML part. -/
def htmlBody (fullMsg : String) : String :=
  "<html><body><p>" ++ replaceNewlines fullMsg ++ "</p></body></html>"

/-- Whether the CC address joins the recipient list:
`if cc_email and "@" in cc_email`. -/
def ccUsed (ccEmail : Option String) : Bool :=
  match ccEmail with
  | none => false
  | some c => !(c == "") && containsAtSign c

/-- The text written to the demo-mode dump file. -/
def demoFileContent (toEmail : String) (ccEmail : Option String)
    (subject timestamp fullMsg : String) : String :=
  "=== DEMO EMAIL (NOT SENT) ===\n" ++
  "From: demo@aiassist.local\n" ++
  "To: " ++ toEmail ++ "\n" ++
  (if truthyOpt ccEmail then "CC: " ++ ccEmail.getD "" ++ "\n" else "") ++
  "Subject: " ++ subject ++ "\n" ++
  "Date: " ++ timestamp ++ "\n" ++
  "\nMessage:\n" ++ fullMsg ++ "\n" ++
  (⟨List.replicate 30 '='⟩ : String) ++ "\n"

namespace Aitools

/-! ### `src/aitools.py`: `send_email` -/

def emailNoCredMsg (provider : String) : String :=
  "I'm afraid I cannot send email, sir. The " ++ provider ++ " credentials are not configured properly."

def emailInvalidToMsg (toEmail : String) : String :=
  "The email address '" ++ toEmail ++ "' doesn't look quite right, sir."

def emailAuthMsg (provider : String) : String :=
  "I'm having trouble with email authentication, sir. Please check the " ++ provider ++ " credentials."

def emailRecipMsg (toEmail : String) : String :=
  "The email address " ++ toEmail ++ " was refused, sir. It may not be valid."

def emailSmtpErrMsg : String :=
  "I encountered an SMTP error while sending the email, sir."

def emailUnexpectedMsg : String :=
  "An unexpected error occurred while sending the email, sir."

def emailSuccessMsg (toEmail : String) (ccEmail : Option String) : String :=
  "Email sent successfully to " ++ toEmail ++ ", sir" ++
    (if truthyOpt ccEmail then " with copy to " ++ ccEmail.getD "" else "") ++ "."

def demoSuccessMsg (toEmail : String) (ccEmail : Option String) (fname : String) : String :=
  "Email simulated successfully to " ++ toEmail ++ ", sir" ++
    (if truthyOpt ccEmail then " with copy to " ++ ccEmail.getD "" else "") ++
    ". Demo file saved as " ++ fname ++ "."

/-- `aitools.send_email(context, to_email, subject, message, cc_email=None)`.
`timestamp`/`fileStamp` stand for the two `datetime.now().strftime(...)`
values; `fileOk` tells whether the demo-mode `open(...)`/`write` (which the
code runs *outside* any try/except) succeeds. -/
def send_email (env : Env) (toEmail subject message : String)
    (ccEmail : Option String) (timestamp fileStamp : String)
    (smtp : SmtpOutcome) (fileOk : Bool) :
    Except String String × List EmailEvent :=
  if demoModeOn env then
    let fullMsg := fullMessageText message timestamp
    let fname := "demo_email_" ++ fileStamp ++ ".txt"
    if fileOk then
      (.ok (demoSuccessMsg toEmail ccEmail fname),
       [.fileWrite fname (demoFileContent toEmail ccEmail subject timestamp fullMsg)])
    else
      (.error "OSError raised while writing the demo email file", [])
  else
    let cfg := emailConfig env
    if !(truthyOpt cfg.user && truthyOpt cfg.password) then
      (.ok (emailNoCredMsg cfg.provider), [])
    else if !(containsAtSign toEmail) then
      (.ok (emailInvalidToMsg toEmail), [])
    else
      let user := cfg.user.getD ""
      let fullMsg := fullMessageText message timestamp
      let recipients := toEmail :: (if ccUsed ccEmail then [ccEmail.getD ""] else [])
      let msg : MimeMessage :=
        { sender := user
          toAddr := toEmail
          cc := if ccUsed ccEmail then ccEmail else none
          subject := subject
          parts := [("plain", fullMsg), ("html", htmlBody fullMsg)] }
      match smtp with
      | .unexpected => (.ok emailUnexpectedMsg, [.smtpConnect cfg.server cfg.port])
      | .smtpOther => (.ok emailSmtpErrMsg, [.smtpConnect cfg.server cfg.port, .startTls])
      | .authError =>
        (.ok (emailAuthMsg cfg.provider),
         [.smtpConnect cfg.server cfg.port, .startTls, .login user])
      | .recipientsRefused =>
        (.ok (emailRecipMsg toEmail),
         [.smtpConnect cfg.server cfg.port, .startTls, .login user,
          .sendmail user recipients msg])
      | .ok =>
        (.ok (emailSuccessMsg toEmail ccEmail),
         [.smtpConnect cfg.server cfg.port, .startTls, .login user,
          .sendmail user recipients msg, .quit])

end Aitools

namespace Toolsn8n

/-- `toolsn8n.send_email` is a line-for-line copy of `aitools.send_email`. -/
def send_email := Aitools.send_email

end Toolsn8n

namespace Tools

/-! ### `src/tools.py`: `get_weather`, `send_email` -/

/-- Outcome of the single `requests.get` in `tools.get_weather`:
a response with a status code and text body, or any exception. -/
inductive TextOutcome where
  | response (status : Nat) (text : String)
  | exception
deriving DecidableEq, Repr

/-- `tools.get_weather(context, city)`: one GET to `wttr.in`, no explicit
timeout (the `requests` library sets none by default). -/
def get_weather (city : String) (o : TextOutcome) :
    Except String String × List HttpRequest :=
  let req : HttpRequest :=
    { method := .get
      url := "https://wttr.in/" ++ city ++ "?format=3"
      params := []
      jsonBody := none
      timeout := none }
  match o with
  | .response status text =>
    if status = 200 then (.ok text.trim, [req])
    else (.ok ("Could not retrieve weather for " ++ city ++ "."), [req])
  | .exception =>
    (.ok ("An error occurred while retrieving weather for " ++ city ++ "."), [req])

/-- Python `str.upper()` (ASCII suffices for the provider names used). -/
def strUpper (s : String) : String := ⟨s.data.map Char.toUpper⟩

def emailNoCredMsg (provider : String) : String :=
  "Email sending failed: " ++ strUpper provider ++ " credentials not configured."

def emailInvalidToMsg (toEmail : String) : String :=
  "Invalid recipient email address: " ++ toEmail

def emailAuthMsg (provider : String) : String :=
  "Email sending failed: Authentication error. Please check your " ++ provider ++ " credentials."

def emailRecipMsg (toEmail : String) : String :=
  "Email sending failed: Invalid recipient address " ++ toEmail

def emailSmtpErrMsg (errStr : String) : String :=
  "Email sending failed: SMTP error - " ++ errStr

def emailUnexpectedMsg (errStr : String) : String :=
  "An error occurred while sending email: " ++ errStr

def emailSuccessMsg (toEmail : String) (ccEmail : Option String) : String :=
  "Email sent successfully to " ++ toEmail ++
    (if truthyOpt ccEmail then " (CC: " ++ ccEmail.getD "" ++ ")" else "")

/-- The debug copy `tools.send_email` saves after a successful send. -/
def debugFileContent (user toEmail subject fullMsg : String) : String :=
  "From: " ++ user ++ "\n" ++ "To: " ++ toEmail ++ "\n" ++
  "Subject: " ++ subject ++ "\n" ++ "Message:\n" ++ fullMsg ++ "\n"

/-- `tools.send_email(context, to_email, subject, message, cc_email=None)`.
No demo mode; after a successful send it writes a local debug copy (inside
the big try, so a failing write lands in the generic handler).  `errStr` is
`str(e)` for whichever exception occurs. -/
def send_email (env : Env) (toEmail subject message : String)
    (ccEmail : Option String) (timestamp fileStamp : String)
    (smtp : SmtpOutcome) (fileOk : Bool) (errStr : String) :
    Except String String × List EmailEvent :=
  let cfg := emailConfig env
  if !(truthyOpt cfg.user && truthyOpt cfg.password) then
    (.ok (emailNoCredMsg cfg.provider), [])
  else if !(containsAtSign toEmail) then
    (.ok (emailInvalidToMsg toEmail), [])
  else
    let user := cfg.user.getD ""
    let fullMsg := fullMessageText message timestamp
    let recipients := toEmail :: (if ccUsed ccEmail then [ccEmail.getD ""] else [])
    let msg : MimeMessage :=
      { sender := user
        toAddr := toEmail
        cc := if ccUsed ccEmail then ccEmail else none
        subject := subject
        parts := [("plain", fullMsg), ("html", htmlBody fullMsg)] }
    match smtp with
    | .unexpected => (.ok (emailUnexpectedMsg errStr), [.smtpConnect cfg.server cfg.port])
    | .smtpOther => (.ok (emailSmtpErrMsg errStr), [.smtpConnect cfg.server cfg.port, .startTls])
    | .authError =>
      (.ok (emailAuthMsg cfg.provider),
       [.smtpConnect cfg.server cfg.port, .startTls, .login user])
    | .recipientsRefused =>
      (.ok (emailRecipMsg toEmail),
       [.smtpConnect cfg.server cfg.port, .startTls, .login user,
        .sendmail user recipients msg])
    | .ok =>
      let sent := [EmailEvent.smtpConnect cfg.server cfg.port, .startTls, .login user,
        .sendmail user recipients msg, .quit]
      if fileOk then
        (.ok (emailSuccessMsg toEmail ccEmail),
         sent ++ [.fileWrite ("sent_email_" ++ fileStamp ++ ".txt")
           (debugFileContent user toEmail subject fullMsg)])
      else
        (.ok (emailUnexpectedMsg errStr), sent)

end Tools

/-- Concrete environment used by witnesses: Yandex provider. -/
def envYandex : Env :=
  { EMAIL_PROVIDER := some "Yandex"
    YANDEX_USER := some "u@y.ru"
    YANDEX_PASSWORD := some "p" }

/-- Concrete environment used by witnesses: default (gmail) provider. -/
def envGmail : Env :=
  { GMAIL_USER := some "me@g.com"
    GMAIL_APP_PASSWORD := some "pw" }

/-! ## Helper lemmas -/

/-- Two strings differ when some `take` of their character data differs. -/
theorem string_ne_of_take (a b : String) (k : Nat)
    (h : a.data.take k ≠ b.data.take k) : a ≠ b :=
  fun he => h (by rw [he])

/-- The first `k` characters of `pre ++ mid ++ suf` lie in `pre` when
`k ≤ pre.length`. -/
theorem glue_take (pre mid suf : String) (k : Nat) (h : k ≤ pre.data.length) :
    (pre ++ mid ++ suf).data.take k = pre.data.take k := by
  rw [String.data_append, String.data_append]
  rw [List.take_append_of_le_length
    (by rw [List.length_append]; exact le_trans h (Nat.le_add_right _ _))]
  exact List.take_append_of_le_length h

/-- The first `k` characters of `pre ++ mid` lie in `pre` when
`k ≤ pre.length`. -/
theorem glue2_take (pre mid : String) (k : Nat) (h : k ≤ pre.data.length) :
    (pre ++ mid).data.take k = pre.data.take k := by
  rw [String.data_append]
  exact List.take_append_of_le_length h

/-! ## Claims -/

/-- Claim C3: `get_weather` issues a GET with parameters `key`, `q` (the
city), `days`, `aqi=no`, `alerts=no`; on status 200 it returns the weather
summary built from the `current`/`location`/`forecast.forecastday` fields
(a malformed body raises inside the `try` and falls to the generic
exception string); on status 400 it returns a city-not-found message
naming the city; on any other status a generic failure message. -/
theorem C3_get_weather_request_and_dispatch
    (env : Env) (key : String) (henv : env.WEATHER_API_KEY = some key)
    (hkey : key ≠ "") (city : String) (days : Int) (status : Nat)
    (body : Option Aitools.WeatherData) :
    Aitools.get_weather env city days (.response status body) =
      (Except.ok (
        if status = 200 then
          match body with
          | some w => Aitools.buildWeather w (min (max days 1) 3)
          | none => Aitools.weatherExnMsg city
        else if status = 400 then Aitools.weatherNotFoundMsg city
        else Aitools.weatherTroubleMsg),
       [{ method := .get
          url := "http://api.weatherapi.com/v1/forecast.json"
          params := [("key", .s key), ("q", .s city),
                     ("days", .n (min (max days 1) 3)),
                     ("aqi", .s "no"), ("alerts", .s "no")]
          jsonBody := none
          timeout := none }]) := by
  unfold Aitools.get_weather
  rw [henv]
  dsimp only
  rw [if_neg hkey]
  by_cases h200 : status = 200
  · subst h200
    cases body <;> simp [Aitools.weatherRequest]
  · by_cases h400 : status = 400
    · simp [h200, h400, Aitools.weatherRequest]
    · simp [h200, h400, Aitools.weatherRequest]

/-- Witness for C3 at a concrete input (status 502). -/
theorem C3_get_weather_request_and_dispatch_witness :
    Aitools.get_weather { WEATHER_API_KEY := some "k" } "Paris" 1
      (.response 502 none) =
      (Except.ok Aitools.weatherTroubleMsg,
       [{ method := .get
          url := "http://api.weatherapi.com/v1/forecast.json"
          params := [("key", .s "k"), ("q", .s "Paris"), ("days", .n 1),
                     ("aqi", .s "no"), ("alerts", .s "no")]
          jsonBody := none
          timeout := none }]) :=
  C3_get_weather_request_and_dispatch { WEATHER_API_KEY := some "k" } "k"
    rfl (by decide) "Paris" 1 502 none

/-- Claim C9 (implicit): the `days` argument of `aitools.get_weather` is
clamped to `min(max(days, 1), 3)` before being sent in the request, the
clamped value lies in `1..3`, and the multi-day forecast text is appended
to the result exactly when the clamped value exceeds 1. -/
theorem C9_get_weather_days_clamp
    (env : Env) (key : String) (henv : env.WEATHER_API_KEY = some key)
    (hkey : key ≠ "") (city : String) (days : Int) (w : Aitools.WeatherData) :
    1 ≤ min (max days 1) 3 ∧ min (max days 1) 3 ≤ 3 ∧
    (Aitools.get_weather env city days (.response 200 (some w))).2 =
      [Aitools.weatherRequest key city (min (max days 1) 3)] ∧
    (Aitools.get_weather env city days (.response 200 (some w))).1 =
      .ok (if min (max days 1) 3 > 1 then
        Aitools.weatherBase w ++ " Forecast: " ++ Aitools.forecastText w.forecastDays
      else Aitools.weatherBase w) := by
  refine ⟨le_min (le_max_right days 1) (by norm_num), min_le_right _ _, ?_, ?_⟩
  · unfold Aitools.get_weather
    rw [henv]
    dsimp only
    rw [if_neg hkey]
    simp
  · unfold Aitools.get_weather
    rw [henv]
    dsimp only
    rw [if_neg hkey]
    simp [Aitools.buildWeather]

/-- Witness for C9 at a concrete input (`days = 7`, clamped to 3). -/
theorem C9_get_weather_days_clamp_witness :
    1 ≤ min (max (7 : Int) 1) 3 ∧ min (max (7 : Int) 1) 3 ≤ 3 ∧
    (Aitools.get_weather { WEATHER_API_KEY := some "k" } "Oslo" 7
      (.response 200 (some ⟨"Oslo", "Norway", 2, "Snow", []⟩))).2 =
      [Aitools.weatherRequest "k" "Oslo" (min (max (7 : Int) 1) 3)] ∧
    (Aitools.get_weather { WEATHER_API_KEY := some "k" } "Oslo" 7
      (.response 200 (some ⟨"Oslo", "Norway", 2, "Snow", []⟩))).1 =
      .ok (if min (max (7 : Int) 1) 3 > 1 then
        Aitools.weatherBase ⟨"Oslo", "Norway", 2, "Snow", []⟩ ++ " Forecast: " ++
          Aitools.forecastText (Aitools.WeatherData.mk "Oslo" "Norway" 2 "Snow" []).forecastDays
      else Aitools.weatherBase ⟨"Oslo", "Norway", 2, "Snow", []⟩) :=
  C9_get_weather_days_clamp { WEATHER_API_KEY := some "k" } "k" rfl (by decide)
    "Oslo" 7 ⟨"Oslo", "Norway", 2, "Snow", []⟩

/-- Claim C4: `search_web` posts `api_key`, `query`, `search_depth`,
`include_answer` and `max_results` to the search API; on status 200 a
non-empty `answer` yields the answer-based string (with up to two source
titles, from the first two results only), otherwise the string is built
from the `content` of at most the first three `results` (snippets over 200
characters truncated with an ellipsis — see `truncateSnippet` inside
`fallbackText`); status 401 and 429 yield the fixed authentication-problem
and rate-limit messages. -/
theorem C4_search_web_contract
    (env : Env) (key : String) (henv : env.TAVILY_API_KEY = some key)
    (hkey : key ≠ "") (query : String) (status : Nat) (b : Aitools.SearchBody) :
    Aitools.search_web env query (.response status (some b)) =
      (Except.ok (
        if status = 200 then
          if b.answer ≠ "" then Aitools.answerResult query b.answer b.results
          else if b.results ≠ [] then
            "I found several results for '" ++ query ++ "': " ++
              Aitools.fallbackText b.results
          else Aitools.searchNoResultsMsg query
        else if status = 401 then Aitools.searchAuthMsg
        else if status = 429 then Aitools.searchRateMsg
        else Aitools.searchTroubleMsg),
       [{ method := .post
          url := "https://api.tavily.com/search"
          params := []
          jsonBody := some [("api_key", .s key), ("query", .s query),
            ("search_depth", .s "basic"), ("include_answer", .b true),
            ("include_images", .b false), ("include_raw_content", .b false),
            ("max_results", .n 3), ("include_domains", .emptyArr),
            ("exclude_domains", .emptyArr)]
          timeout := none }]) ∧
    Aitools.answerSources b.results = Aitools.answerSources (b.results.take 2) ∧
    Aitools.fallbackText b.results = Aitools.fallbackText (b.results.take 3) := by
  refine ⟨?_, ?_, ?_⟩
  · unfold Aitools.search_web
    rw [henv]
    dsimp only
    rw [if_neg hkey]
    by_cases h200 : status = 200
    · subst h200
      by_cases hans : b.answer = ""
      · by_cases hres : b.results = [] <;>
          simp [hans, hres, Aitools.searchRequest, Aitools.searchPayload]
      · simp [hans, Aitools.searchRequest, Aitools.searchPayload]
    · by_cases h401 : status = 401
      · simp [h200, h401, Aitools.searchRequest, Aitools.searchPayload]
      · by_cases h429 : status = 429 <;>
          simp [h200, h401, h429, Aitools.searchRequest, Aitools.searchPayload]
  · simp [Aitools.answerSources, List.take_take]
  · simp [Aitools.fallbackText, List.take_take]

/-- Witness for C4 at a concrete input (status 429). -/
theorem C4_search_web_contract_witness :
    Aitools.search_web { TAVILY_API_KEY := some "k" } "news"
      (.response 429 (some ⟨"", []⟩)) =
      (Except.ok Aitools.searchRateMsg,
       [{ method := .post
          url := "https://api.tavily.com/search"
          params := []
          jsonBody := some [("api_key", .s "k"), ("query", .s "news"),
            ("search_depth", .s "basic"), ("include_answer", .b true),
            ("include_images", .b false), ("include_raw_content", .b false),
            ("max_results", .n 3), ("include_domains", .emptyArr),
            ("exclude_domains", .emptyArr)]
          timeout := none }]) ∧
    Aitools.answerSources (Aitools.SearchBody.mk "" []).results =
      Aitools.answerSources ((Aitools.SearchBody.mk "" []).results.take 2) ∧
    Aitools.fallbackText (Aitools.SearchBody.mk "" []).results =
      Aitools.fallbackText ((Aitools.SearchBody.mk "" []).results.take 3) :=
  C4_search_web_contract { TAVILY_API_KEY := some "k" } "k" rfl (by decide)
    "news" 429 ⟨"", []⟩

/-- Claim C6: `get_weather_n8n` posts a JSON body with `action="weather"`,
the (stripped) city, the (lower-cased) units, a date and a user id to the
fixed webhook URL, with a 15-second timeout; a 200 response whose body has
`success = true` returns the body's `message` field; a non-200 status or
`success = false` returns an error text instead. -/
theorem C6_n8n_contract (city units : String) (tstamp : Int) (status : Nat)
    (body : Option Toolsn8n.N8nBody) :
    (Toolsn8n.get_weather_n8n city units tstamp (.response status body)).2 =
      [{ method := .post
         url := "https://auto2025system.duckdns.org/webhook/smart-weather"
         params := []
         jsonBody := some [("action", .s "weather"), ("city", .s city.trim),
           ("units", .s (strLower units)), ("date", .s "today"),
           ("user_id", .s "livekit_user"), ("timestamp", .n tstamp)]
         timeout := some 15 }] ∧
    (Toolsn8n.get_weather_n8n city units tstamp (.response status body)).1 =
      .ok (if status = 200 then
             match body with
             | some b =>
               if b.success then
                 b.message.getD "Weather information retrieved successfully."
               else
                 "Weather service error: " ++
                   b.message.getD "Failed to get weather information."
             | none => Toolsn8n.n8nJsonErrMsg
           else Toolsn8n.n8nStatusErrMsg status) := by
  constructor
  · unfold Toolsn8n.get_weather_n8n
    dsimp only
    by_cases h200 : status = 200
    · subst h200
      cases body with
      | none => simp [Toolsn8n.n8nRequest, Toolsn8n.n8nPayload, Toolsn8n.N8N_WEATHER_URL]
      | some b =>
        by_cases hs : b.success <;>
          simp [hs, Toolsn8n.n8nRequest, Toolsn8n.n8nPayload, Toolsn8n.N8N_WEATHER_URL]
    · simp [h200, Toolsn8n.n8nRequest, Toolsn8n.n8nPayload, Toolsn8n.N8N_WEATHER_URL]
  · unfold Toolsn8n.get_weather_n8n
    dsimp only
    by_cases h200 : status = 200
    · subst h200
      cases body with
      | none => simp
      | some b => by_cases hs : b.success <;> simp [hs]
    · simp [h200]

/-- Claim C1 counterexample: in demo mode `send_email` opens and writes the
dump file *outside* any try/except (the demo block precedes the `try`), so
a failing write propagates an exception instead of returning a string. -/
theorem C1_counterexample_demo_write_propagates :
    (Aitools.send_email { EMAIL_DEMO_MODE := some "true" } "a@b.c" "Hi" "Body"
      none "2025-01-01 00:00:00" "20250101_000000" .ok false).1 =
    Except.error "OSError raised while writing the demo email file" := by
  decide

/-- Claim C1 (amended): every tool function returns a string for every
input and every outcome of its single HTTP/SMTP interaction — except that
`send_email`'s demo-mode file write sits outside the try/except, so the
guarantee for `send_email` holds whenever the run is not a demo-mode run
with a failing file write. -/
theorem C1_amended_every_tool_returns_a_string
    (env : Env) (city query units toEmail subject message timestamp fileStamp : String)
    (days tstamp : Int) (ccEmail : Option String)
    (wo : Aitools.WeatherOutcome) (so : Aitools.SearchOutcome)
    (no : Toolsn8n.N8nOutcome) (smtp : SmtpOutcome) (fileOk : Bool)
    (hdemo : demoModeOn env = true → fileOk = true) :
    (Aitools.get_weather env city days wo).1.isOk = true ∧
    (Aitools.search_web env query so).1.isOk = true ∧
    (Toolsn8n.get_weather_n8n city units tstamp no).1.isOk = true ∧
    (Aitools.send_email env toEmail subject message ccEmail
      timestamp fileStamp smtp fileOk).1.isOk = true := by
  refine ⟨?_, ?_, ?_, ?_⟩
  · unfold Aitools.get_weather
    cases env.WEATHER_API_KEY with
    | none => rfl
    | some key =>
      dsimp only
      by_cases hk : key = ""
      · simp [hk, Except.isOk, Except.toBool]
      · rw [if_neg hk]
        cases wo with
        | exception => rfl
        | response status body =>
          dsimp only
          by_cases h200 : status = 200
          · subst h200; cases body <;> simp [Except.isOk, Except.toBool]
          · by_cases h400 : status = 400 <;> simp [h200, h400, Except.isOk, Except.toBool]
  · unfold Aitools.search_web
    cases env.TAVILY_API_KEY with
    | none => rfl
    | some key =>
      dsimp only
      by_cases hk : key = ""
      · simp [hk, Except.isOk, Except.toBool]
      · rw [if_neg hk]
        cases so with
        | exception => rfl
        | response status body =>
          dsimp only
          by_cases h200 : status = 200
          · subst h200
            cases body with
            | none => simp [Except.isOk, Except.toBool]
            | some b =>
              by_cases hans : b.answer = ""
              · by_cases hres : b.results = [] <;> simp [hans, hres, Except.isOk, Except.toBool]
              · simp [hans, Except.isOk, Except.toBool]
          · by_cases h401 : status = 401
            · simp [h200, h401, Except.isOk, Except.toBool]
            · by_cases h429 : status = 429 <;> simp [h200, h401, h429, Except.isOk, Except.toBool]
  · unfold Toolsn8n.get_weather_n8n
    cases no with
    | timeoutExn => rfl
    | clientExn => rfl
    | otherExn => rfl
    | response status body =>
      dsimp only
      by_cases h200 : status = 200
      · subst h200
        cases body with
        | none => simp [Except.isOk, Except.toBool]
        | some b => by_cases hs : b.success <;> simp [hs, Except.isOk, Except.toBool]
      · simp [h200, Except.isOk, Except.toBool]
  · unfold Aitools.send_email
    by_cases hd : demoModeOn env = true
    · rw [if_pos hd, hdemo hd]
      simp [Except.isOk, Except.toBool]
    · rw [if_neg hd]
      dsimp only
      by_cases hcred :
          (!(truthyOpt (emailConfig env).user && truthyOpt (emailConfig env).password)) = true
      · simp [hcred, Except.isOk, Except.toBool]
      · simp only [hcred, Bool.false_eq_true, if_false]
        by_cases hat : (!(containsAtSign toEmail)) = true
        · simp [hat, Except.isOk, Except.toBool]
        · simp only [hat, Bool.false_eq_true, if_false]
          cases smtp <;> rfl

/-- Witness for the amended C1 at concrete inputs (demo mode off). -/
theorem C1_amended_every_tool_returns_a_string_witness :
    (Aitools.get_weather {} "Rome" 1 .exception).1.isOk = true ∧
    (Aitools.search_web {} "q" .exception).1.isOk = true ∧
    (Toolsn8n.get_weather_n8n "Rome" "celsius" 0 .otherExn).1.isOk = true ∧
    (Aitools.send_email {} "a@b.c" "s" "m" none "t" "f"
      .unexpected false).1.isOk = true :=
  C1_amended_every_tool_returns_a_string {} "Rome" "q" "celsius" "a@b.c" "s"
    "m" "t" "f" 1 0 none .exception .exception .otherExn .unexpected false
    (by decide)

/-- Claim C2 counterexample: the single HTTP calls of `tools.get_weather`,
`aitools.get_weather` and `aitools.search_web` are all issued with *no*
explicit timeout (only `get_weather_n8n` passes one), refuting "that call
is issued with a fixed timeout" for every tool function. -/
theorem C2_counterexample_requests_without_timeout :
    (Tools.get_weather "London" (.response 200 " ok ")).2.map HttpRequest.timeout
      = [none] ∧
    (Aitools.get_weather { WEATHER_API_KEY := some "k" } "London" 1
      .exception).2.map HttpRequest.timeout = [none] ∧
    (Aitools.search_web { TAVILY_API_KEY := some "k" } "q"
      .exception).2.map HttpRequest.timeout = [none] := by
  decide

/-- Claim C2 (amended): every HTTP tool function performs at most one
outbound HTTP call per invocation — exactly one whenever its API key is
configured (always, for the keyless `get_weather_n8n` and
`tools.get_weather`) — and never retries; only `get_weather_n8n` sets an
explicit per-request timeout (15 seconds), the others rely on the HTTP
library's defaults. -/
theorem C2_amended_single_call_no_retry
    (env : Env) (city city2 query units : String) (days tstamp : Int)
    (wo : Aitools.WeatherOutcome) (so : Aitools.SearchOutcome)
    (no : Toolsn8n.N8nOutcome) (t : Tools.TextOutcome) :
    (Aitools.get_weather env city days wo).2.length =
      (if truthyOpt env.WEATHER_API_KEY then 1 else 0) ∧
    (Aitools.search_web env query so).2.length =
      (if truthyOpt env.TAVILY_API_KEY then 1 else 0) ∧
    (Toolsn8n.get_weather_n8n city units tstamp no).2 =
      [Toolsn8n.n8nRequest city units tstamp] ∧
    (Toolsn8n.n8nRequest city units tstamp).timeout = some 15 ∧
    (Tools.get_weather city2 t).2.length = 1 := by
  refine ⟨?_, ?_, ?_, rfl, ?_⟩
  · unfold Aitools.get_weather
    cases env.WEATHER_API_KEY with
    | none => rfl
    | some key =>
      dsimp only
      by_cases hk : key = ""
      · simp [hk, truthyOpt]
      · rw [if_neg hk]
        have hkt : truthyOpt (some key) = true := by simp [truthyOpt, hk]
        rw [hkt]
        cases wo with
        | exception => rfl
        | response status body =>
          dsimp only
          by_cases h200 : status = 200
          · subst h200; cases body <;> simp
          · by_cases h400 : status = 400 <;> simp [h200, h400]
  · unfold Aitools.search_web
    cases env.TAVILY_API_KEY with
    | none => rfl
    | some key =>
      dsimp only
      by_cases hk : key = ""
      · simp [hk, truthyOpt]
      · rw [if_neg hk]
        have hkt : truthyOpt (some key) = true := by simp [truthyOpt, hk]
        rw [hkt]
        cases so with
        | exception => rfl
        | response status body =>
          dsimp only
          by_cases h200 : status = 200
          · subst h200
            cases body with
            | none => simp
            | some b =>
              by_cases hans : b.answer = ""
              · by_cases hres : b.results = [] <;> simp [hans, hres]
              · simp [hans]
          · by_cases h401 : status = 401
            · simp [h200, h401]
            · by_cases h429 : status = 429 <;> simp [h200, h401, h429]
  · unfold Toolsn8n.get_weather_n8n
    cases no with
    | timeoutExn => rfl
    | clientExn => rfl
    | otherExn => rfl
    | response status body =>
      dsimp only
      by_cases h200 : status = 200
      · subst h200
        cases body with
        | none => simp
        | some b => by_cases hs : b.success <;> simp [hs]
      · simp [h200]
  · unfold Tools.get_weather
    cases t with
    | exception => rfl
    | response status text =>
      dsimp only
      by_cases h200 : status = 200 <;> simp [h200]

/-- Claim C5: for every value of `EMAIL_PROVIDER` (`outlook`, `yandex`,
`mail`, anything else defaulting to gmail), `send_email` connects to the
corresponding SMTP server on port 587, calls STARTTLS before logging in,
and sends a multipart message with both a plain-text and an HTML part
(visible in the `parts` of the message handed to `sendmail`). -/
theorem C5_send_email_smtp_protocol
    (env : Env) (toEmail subject message timestamp fileStamp : String)
    (ccEmail : Option String) (fileOk : Bool)
    (hdemo : demoModeOn env = false)
    (hu : truthyOpt (emailConfig env).user = true)
    (hp : truthyOpt (emailConfig env).password = true)
    (hat : containsAtSign toEmail = true) :
    (emailConfig env).port = 587 ∧
    (emailConfig env).server =
      specProviderServer (strLower (env.EMAIL_PROVIDER.getD "gmail")) ∧
    (Aitools.send_email env toEmail subject message ccEmail timestamp fileStamp
        .ok fileOk).2 =
      [.smtpConnect (emailConfig env).server (emailConfig env).port,
       .startTls,
       .login ((emailConfig env).user.getD ""),
       .sendmail ((emailConfig env).user.getD "")
         (toEmail :: (if ccUsed ccEmail then [ccEmail.getD ""] else []))
         { sender := (emailConfig env).user.getD ""
           toAddr := toEmail
           cc := if ccUsed ccEmail then ccEmail else none
           subject := subject
           parts := [("plain", fullMessageText message timestamp),
                     ("html", htmlBody (fullMessageText message timestamp))] },
       .quit] := by
  refine ⟨?_, ?_, ?_⟩
  · unfold emailConfig
    dsimp only
    split_ifs <;> rfl
  · unfold emailConfig specProviderServer
    dsimp only
    split_ifs <;> rfl
  · unfold Aitools.send_email
    simp [hdemo, hu, hp, hat]

/-- Witness for C5 at a concrete input (provider `Yandex`, lower-cased). -/
theorem C5_send_email_smtp_protocol_witness :
    (emailConfig envYandex).port = 587 ∧
    (emailConfig envYandex).server =
      specProviderServer (strLower (envYandex.EMAIL_PROVIDER.getD "gmail")) ∧
    (Aitools.send_email envYandex
        "a@b.c" "Subj" "Body" none "ts" "fs" .ok true).2 =
      [.smtpConnect (emailConfig envYandex).server
        (emailConfig envYandex).port,
       .startTls,
       .login ((emailConfig envYandex).user.getD ""),
       .sendmail ((emailConfig envYandex).user.getD "")
         ("a@b.c" :: (if ccUsed none then [(none : Option String).getD ""] else []))
         { sender := (emailConfig envYandex).user.getD ""
           toAddr := "a@b.c"
           cc := if ccUsed none then none else none
           subject := "Subj"
           parts := [("plain", fullMessageText "Body" "ts"),
                     ("html", htmlBody (fullMessageText "Body" "ts"))] },
       .quit] :=
  C5_send_email_smtp_protocol envYandex
    "a@b.c" "Subj" "Body" "ts" "fs" none true (by decide) (by decide) (by decide)
    (by decide)

/-- Claim C7: the three SMTP failure modes of `send_email` —
`SMTPAuthenticationError`, `SMTPRecipientsRefused`, any other
`SMTPException` — each produce a distinct error string that is returned to
the caller (as `Except.ok`), not raised; this holds for both the
`aitools.py` and the `tools.py` variant. -/
theorem C7_smtp_failure_modes_distinct
    (env : Env) (toEmail subject message timestamp fileStamp errStr : String)
    (ccEmail : Option String) (fileOk : Bool)
    (hdemo : demoModeOn env = false)
    (hu : truthyOpt (emailConfig env).user = true)
    (hp : truthyOpt (emailConfig env).password = true)
    (hat : containsAtSign toEmail = true) :
    ((Aitools.send_email env toEmail subject message ccEmail timestamp fileStamp
        .authError fileOk).1 = .ok (Aitools.emailAuthMsg (emailConfig env).provider) ∧
     (Aitools.send_email env toEmail subject message ccEmail timestamp fileStamp
        .recipientsRefused fileOk).1 = .ok (Aitools.emailRecipMsg toEmail) ∧
     (Aitools.send_email env toEmail subject message ccEmail timestamp fileStamp
        .smtpOther fileOk).1 = .ok Aitools.emailSmtpErrMsg ∧
     Aitools.emailAuthMsg (emailConfig env).provider ≠ Aitools.emailRecipMsg toEmail ∧
     Aitools.emailAuthMsg (emailConfig env).provider ≠ Aitools.emailSmtpErrMsg ∧
     Aitools.emailRecipMsg toEmail ≠ Aitools.emailSmtpErrMsg) ∧
    ((Tools.send_email env toEmail subject message ccEmail timestamp fileStamp
        .authError fileOk errStr).1 = .ok (Tools.emailAuthMsg (emailConfig env).provider) ∧
     (Tools.send_email env toEmail subject message ccEmail timestamp fileStamp
        .recipientsRefused fileOk errStr).1 = .ok (Tools.emailRecipMsg toEmail) ∧
     (Tools.send_email env toEmail subject message ccEmail timestamp fileStamp
        .smtpOther fileOk errStr).1 = .ok (Tools.emailSmtpErrMsg errStr) ∧
     Tools.emailAuthMsg (emailConfig env).provider ≠ Tools.emailRecipMsg toEmail ∧
     Tools.emailAuthMsg (emailConfig env).provider ≠ Tools.emailSmtpErrMsg errStr ∧
     Tools.emailRecipMsg toEmail ≠ Tools.emailSmtpErrMsg errStr) := by
  refine ⟨⟨?_, ?_, ?_, ?_, ?_, ?_⟩, ⟨?_, ?_, ?_, ?_, ?_, ?_⟩⟩
  · unfold Aitools.send_email
    simp [hdemo, hu, hp, hat]
  · unfold Aitools.send_email
    simp [hdemo, hu, hp, hat]
  · unfold Aitools.send_email
    simp [hdemo, hu, hp, hat]
  · apply string_ne_of_take _ _ 1
    unfold Aitools.emailAuthMsg Aitools.emailRecipMsg
    rw [glue_take _ _ _ 1 (by decide), glue_take _ _ _ 1 (by decide)]
    decide
  · apply string_ne_of_take _ _ 2
    unfold Aitools.emailAuthMsg Aitools.emailSmtpErrMsg
    rw [glue_take _ _ _ 2 (by decide)]
    decide
  · apply string_ne_of_take _ _ 1
    unfold Aitools.emailRecipMsg Aitools.emailSmtpErrMsg
    rw [glue_take _ _ _ 1 (by decide)]
    decide
  · unfold Tools.send_email
    simp [hu, hp, hat]
  · unfold Tools.send_email
    simp [hu, hp, hat]
  · unfold Tools.send_email
    simp [hu, hp, hat]
  · apply string_ne_of_take _ _ 23
    unfold Tools.emailAuthMsg Tools.emailRecipMsg
    rw [glue_take _ _ _ 23 (by decide), glue2_take _ _ 23 (by decide)]
    decide
  · apply string_ne_of_take _ _ 23
    unfold Tools.emailAuthMsg Tools.emailSmtpErrMsg
    rw [glue_take _ _ _ 23 (by decide), glue2_take _ _ 23 (by decide)]
    decide
  · apply string_ne_of_take _ _ 23
    unfold Tools.emailRecipMsg Tools.emailSmtpErrMsg
    rw [glue2_take _ _ 23 (by decide), glue2_take _ _ 23 (by decide)]
    decide

/-- Witness for C7 at a concrete input (gmail provider). -/
theorem C7_smtp_failure_modes_distinct_witness :
    ((Aitools.send_email envGmail "a@b.c" "s" "m" none "ts" "fs"
        .authError true).1 =
      .ok (Aitools.emailAuthMsg (emailConfig envGmail).provider) ∧
     (Aitools.send_email envGmail "a@b.c" "s" "m" none "ts" "fs"
        .recipientsRefused true).1 = .ok (Aitools.emailRecipMsg "a@b.c") ∧
     (Aitools.send_email envGmail "a@b.c" "s" "m" none "ts" "fs"
        .smtpOther true).1 = .ok Aitools.emailSmtpErrMsg ∧
     Aitools.emailAuthMsg (emailConfig envGmail).provider ≠ Aitools.emailRecipMsg "a@b.c" ∧
     Aitools.emailAuthMsg (emailConfig envGmail).provider ≠ Aitools.emailSmtpErrMsg ∧
     Aitools.emailRecipMsg "a@b.c" ≠ Aitools.emailSmtpErrMsg) ∧
    ((Tools.send_email envGmail "a@b.c" "s" "m" none "ts" "fs"
        .authError true "boom").1 =
      .ok (Tools.emailAuthMsg (emailConfig envGmail).provider) ∧
     (Tools.send_email envGmail "a@b.c" "s" "m" none "ts" "fs"
        .recipientsRefused true "boom").1 = .ok (Tools.emailRecipMsg "a@b.c") ∧
     (Tools.send_email envGmail "a@b.c" "s" "m" none "ts" "fs"
        .smtpOther true "boom").1 = .ok (Tools.emailSmtpErrMsg "boom") ∧
     Tools.emailAuthMsg (emailConfig envGmail).provider ≠ Tools.emailRecipMsg "a@b.c" ∧
     Tools.emailAuthMsg (emailConfig envGmail).provider ≠ Tools.emailSmtpErrMsg "boom" ∧
     Tools.emailRecipMsg "a@b.c" ≠ Tools.emailSmtpErrMsg "boom") :=
  C7_smtp_failure_modes_distinct envGmail "a@b.c" "s" "m" "ts" "fs" "boom" none
    true (by decide) (by decide) (by decide) (by decide)

/-- Claim C8: when `EMAIL_DEMO_MODE` lower-cases to `"true"`, `send_email`
writes the unsent email (from, to, optional cc, subject, timestamped body)
to a local text file, returns a simulated-success message, and performs no
SMTP connect, login or send. -/
theorem C8_demo_mode_writes_file_and_skips_smtp
    (env : Env) (toEmail subject message timestamp fileStamp : String)
    (ccEmail : Option String) (smtp : SmtpOutcome)
    (hdemo : strLower (env.EMAIL_DEMO_MODE.getD "false") = "true") :
    Aitools.send_email env toEmail subject message ccEmail timestamp fileStamp
        smtp true =
      (.ok (Aitools.demoSuccessMsg toEmail ccEmail
            ("demo_email_" ++ fileStamp ++ ".txt")),
       [.fileWrite ("demo_email_" ++ fileStamp ++ ".txt")
          (demoFileContent toEmail ccEmail subject timestamp
            (fullMessageText message timestamp))]) ∧
    ∀ e ∈ (Aitools.send_email env toEmail subject message ccEmail timestamp
        fileStamp smtp true).2, e.isSmtp = false := by
  have hd : demoModeOn env = true := by simp [demoModeOn, hdemo]
  have hmain : Aitools.send_email env toEmail subject message ccEmail timestamp
      fileStamp smtp true =
      (.ok (Aitools.demoSuccessMsg toEmail ccEmail
            ("demo_email_" ++ fileStamp ++ ".txt")),
       [.fileWrite ("demo_email_" ++ fileStamp ++ ".txt")
          (demoFileContent toEmail ccEmail subject timestamp
            (fullMessageText message timestamp))]) := by
    unfold Aitools.send_email
    simp [hd]
  refine ⟨hmain, ?_⟩
  rw [hmain]
  intro e he
  simp only [List.mem_singleton] at he
  subst he
  rfl

/-- Witness for C8 at a concrete input (`EMAIL_DEMO_MODE = "TRUE"`,
case-insensitive). -/
theorem C8_demo_mode_writes_file_and_skips_smtp_witness :
    Aitools.send_email { EMAIL_DEMO_MODE := some "TRUE" } "a@b.c" "s" "m"
        (some "cc@d.e") "ts" "fs" .unexpected true =
      (.ok (Aitools.demoSuccessMsg "a@b.c" (some "cc@d.e")
            ("demo_email_" ++ "fs" ++ ".txt")),
       [.fileWrite ("demo_email_" ++ "fs" ++ ".txt")
          (demoFileContent "a@b.c" (some "cc@d.e") "s" "ts"
            (fullMessageText "m" "ts"))]) ∧
    ∀ e ∈ (Aitools.send_email { EMAIL_DEMO_MODE := some "TRUE" } "a@b.c" "s"
        "m" (some "cc@d.e") "ts" "fs" .unexpected true).2, e.isSmtp = false :=
  C8_demo_mode_writes_file_and_skips_smtp { EMAIL_DEMO_MODE := some "TRUE" }
    "a@b.c" "s" "m" "ts" "fs" (some "cc@d.e") .unexpected (by decide)

/-- Claim C10 (implicit): a provided `cc_email` without an `"@"` is
silently dropped from the SMTP recipient list (the mail goes only to
`to_email`, and no `Cc` header is set), yet the success message still
reports the CC address as having received a copy — in both the
`aitools.py` and the `tools.py` variant. -/
theorem C10_cc_without_at_sign_excluded_but_reported
    (env : Env) (toEmail subject message timestamp fileStamp errStr c : String)
    (fileOk : Bool)
    (hdemo : demoModeOn env = false)
    (hu : truthyOpt (emailConfig env).user = true)
    (hp : truthyOpt (emailConfig env).password = true)
    (hat : containsAtSign toEmail = true)
    (hc : c ≠ "") (hcat : containsAtSign c = false) :
    (Aitools.send_email env toEmail subject message (some c) timestamp fileStamp
        .ok fileOk).2 =
      [.smtpConnect (emailConfig env).server (emailConfig env).port,
       .startTls,
       .login ((emailConfig env).user.getD ""),
       .sendmail ((emailConfig env).user.getD "") [toEmail]
         { sender := (emailConfig env).user.getD ""
           toAddr := toEmail
           cc := none
           subject := subject
           parts := [("plain", fullMessageText message timestamp),
                     ("html", htmlBody (fullMessageText message timestamp))] },
       .quit] ∧
    (Aitools.send_email env toEmail subject message (some c) timestamp fileStamp
        .ok fileOk).1 =
      .ok ("Email sent successfully to " ++ toEmail ++ ", sir" ++
        (" with copy to " ++ c) ++ ".") ∧
    (Tools.send_email env toEmail subject message (some c) timestamp fileStamp
        .ok true errStr).1 =
      .ok ("Email sent successfully to " ++ toEmail ++ (" (CC: " ++ c ++ ")")) := by
  have hcc : ccUsed (some c) = false := by simp [ccUsed, hcat]
  have hct : truthyOpt (some c) = true := by simp [truthyOpt, hc]
  refine ⟨?_, ?_, ?_⟩
  · unfold Aitools.send_email
    simp [hdemo, hu, hp, hat, hcc]
  · unfold Aitools.send_email
    simp [hdemo, hu, hp, hat, hcc, Aitools.emailSuccessMsg, hct]
  · unfold Tools.send_email
    simp [hu, hp, hat, hcc, Tools.emailSuccessMsg, hct]

/-- Witness for C10 at a concrete input (`cc_email = "bob"`, no `"@"`). -/
theorem C10_cc_without_at_sign_excluded_but_reported_witness :
    (Aitools.send_email envGmail "to@x.com" "s" "m" (some "bob")
        "ts" "fs" .ok true).2 =
      [.smtpConnect (emailConfig envGmail).server
        (emailConfig envGmail).port,
       .startTls,
       .login ((emailConfig envGmail).user.getD ""),
       .sendmail ((emailConfig envGmail).user.getD "") ["to@x.com"]
         { sender := (emailConfig envGmail).user.getD ""
           toAddr := "to@x.com"
           cc := none
           subject := "s"
           parts := [("plain", fullMessageText "m" "ts"),
                     ("html", htmlBody (fullMessageText "m" "ts"))] },
       .quit] ∧
    (Aitools.send_email envGmail "to@x.com" "s" "m" (some "bob")
        "ts" "fs" .ok true).1 =
      .ok ("Email sent successfully to " ++ "to@x.com" ++ ", sir" ++
        (" with copy to " ++ "bob") ++ ".") ∧
    (Tools.send_email envGmail "to@x.com" "s" "m" (some "bob")
        "ts" "fs" .ok true "boom").1 =
      .ok ("Email sent successfully to " ++ "to@x.com" ++
        (" (CC: " ++ "bob" ++ ")")) :=
  C10_cc_without_at_sign_excluded_but_reported envGmail "to@x.com" "s" "m" "ts" "fs" "boom"
    "bob" true (by decide) (by decide) (by decide) (by decide) (by decide)
    (by decide)

